import Mathlib

/-!
Verification of the nektar Hive-blockchain client (rmaniego/nektar).

This file gives a shallow embedding, in Lean 4, of the parts of the
repository that the specification's claims are about:

* `Nektar.get_reference_block_data` (src/nektar/nektar.py) — the TaPoS
  reference-block resolver;
* `Nektar.sign_transaction` / `Nektar.recover_pubkey_parameter`
  (src/nektar/transactions.py) — the recoverable-signature engine;
* `Nektar.broadcast` / `Nektar.get_necessary_wifs`
  (src/nektar/appbase.py) — the broadcast orchestrator and authority
  resolver;
* `Nektar.send_request` (src/nektar/appbase.py `AppBase._send_request`)
  — the multi-node failover transport;
* `Nektar.custom_nodes` (src/nektar/appbase.py) — node-list
  configuration.

External collaborators (the `requests` HTTP session, the remote
serializer, SHA-256, and the elliptic-curve primitives of the `ecdsa`
library) are modelled as explicit oracle parameters; Python exceptions
are modelled by the `Except` monad over an explicit error type.
-/

namespace Nektar

/-- Python exceptions that the embedded code can raise.  The codebase
itself defines only `NektarException` (src/nektar/utils.py); `typeError`,
`attributeError` and `keyError` model the corresponding Python built-in
exceptions.  `cryptoError` and `authorityError` are the exception classes
named by the specification; no class of either name exists anywhere in
the repository, the constructors are present only so that statements
about them can be written down. -/
inductive PyError where
  | nektarException (msg : String)
  | typeError
  | attributeError
  | keyError
  | cryptoError
  | authorityError
  deriving DecidableEq, Repr

/-- Value of a single hexadecimal digit, `none` on a non-hex character
(`binascii.unhexlify` raises on such input). -/
def hexVal (c : Char) : Option Nat :=
  if '0' ≤ c ∧ c ≤ '9' then some (c.toNat - '0'.toNat)
  else if 'a' ≤ c ∧ c ≤ 'f' then some (c.toNat - 'a'.toNat + 10)
  else if 'A' ≤ c ∧ c ≤ 'F' then some (c.toNat - 'A'.toNat + 10)
  else none

/-- Decoding of a hex string (as a list of characters) into a list of
byte values, as `binascii.unhexlify` does; fails on odd length or
non-hex characters. -/
def unhexlify : List Char → Option (List Nat)
  | [] => some []
  | [_] => none
  | a :: b :: rest => do
      let hi ← hexVal a
      let lo ← hexVal b
      let r ← unhexlify rest
      pure ((16 * hi + lo) :: r)

/-- Hex character for a digit value below 16 (lowercase, as produced by
`binascii.hexlify`). -/
def hexDigit (n : Nat) : Char :=
  if n < 10 then Char.ofNat ('0'.toNat + n)
  else Char.ofNat ('a'.toNat + (n - 10))

/-- Encoding of a list of byte values as a lowercase hex string (two
characters per byte), as `binascii.hexlify` does. -/
def hexlify : List Nat → List Char
  | [] => []
  | b :: rest => hexDigit (b / 16) :: hexDigit (b % 16) :: hexlify rest

theorem hexlify_length (bs : List Nat) : (hexlify bs).length = 2 * bs.length := by
  induction bs with
  | nil => rfl
  | cons b rest ih => simp [hexlify, ih]; ring

/-! TaPoS resolver (src/nektar/nektar.py, `Nektar.get_previous_block`
and `Nektar.get_reference_block_data`).

The chain is an oracle: `head_block_number` is the field of the
dynamic-global-properties response, and `previousOf n` is the
`["block"]["previous"]` field (a hex block-id string) of the
`get_block` response for block number `n`. -/

structure Chain where
  head_block_number : Nat
  previousOf : Nat → List Char

/-- Model of `Nektar.get_previous_block`: fetch the block at
`head_block_number - 2` and return its `previous` block-id string. -/
def get_previous_block (chain : Chain) (head_block_number : Nat) : List Char :=
  chain.previousOf (head_block_number - 2)

/-- Model of `struct.unpack_from` with format `<I`: read an unsigned
32-bit little-endian integer from four bytes starting at `offset`;
`struct` raises if the buffer is too short. -/
def unpack_from_le_u32 (bs : List Nat) (offset : Nat) : Option Nat :=
  if offset + 4 ≤ bs.length then
    some (bs.getD offset 0 + 256 * bs.getD (offset + 1) 0 +
          65536 * bs.getD (offset + 2) 0 + 16777216 * bs.getD (offset + 3) 0)
  else none

/-- Model of `Nektar.get_reference_block_data`:
`ref_block_num = head_block_number - 3 & 0xFFFF` (Python precedence:
subtraction binds tighter than `&`), and `ref_block_prefix` is the
little-endian u32 at offset 4 of the hex-decoded `previous` id of the
block at `head_block_number - 2`. -/
def get_reference_block_data (chain : Chain) : Option (Nat × Nat) := do
  let ref_block_num := (chain.head_block_number - 3) &&& 0xFFFF
  let previous := get_previous_block chain chain.head_block_number
  let bytes ← unhexlify previous
  let ref_block_prefix ← unpack_from_le_u32 bytes 4
  pure (ref_block_num, ref_block_prefix)

/-- Little-endian reading of a byte list as an unsigned integer (the
specification's `little_endian_u32` applied to a 4-byte slice). -/
def littleEndianNat : List Nat → Nat
  | [] => 0
  | b :: rest => b + 256 * littleEndianNat rest

/-- C1: for every dynamic-global-properties response with head block
number `h`, `get_reference_block_data` returns
`ref_block_num = (h - 3) &&& 0xFFFF` and `ref_block_prefix` equal to the
unsigned 32-bit little-endian integer read from bytes 4..8 of the
hex-decoded `previous` block-id of the block fetched at height `h - 2`. -/
theorem get_reference_block_data_correct (chain : Chain) (bs : List Nat)
    (hdec : unhexlify (chain.previousOf (chain.head_block_number - 2)) = some bs)
    (hlen : 8 ≤ bs.length) :
    get_reference_block_data chain =
      some ((chain.head_block_number - 3) &&& 0xFFFF,
            littleEndianNat ((bs.drop 4).take 4)) := by
  rcases bs with _ | ⟨b0, _ | ⟨b1, _ | ⟨b2, _ | ⟨b3, _ | ⟨b4, _ | ⟨b5, _ | ⟨b6, _ | ⟨b7, rest⟩⟩⟩⟩⟩⟩⟩⟩ <;>
    simp_all [get_reference_block_data, get_previous_block, unpack_from_le_u32,
      littleEndianNat, List.getD]
  omega

/-- Concrete chain used to instantiate `get_reference_block_data_correct`:
head block number 100003, every block's `previous` id decoding to the
bytes 0x00 0x11 0x22 0x33 0x44 0x55 0x66 0x77. -/
def witnessChain : Chain where
  head_block_number := 100003
  previousOf := fun _ => "0011223344556677".toList

/-- Instantiation of `get_reference_block_data_correct` on `witnessChain`. -/
theorem get_reference_block_data_correct_witness :
    unhexlify (witnessChain.previousOf (witnessChain.head_block_number - 2)) =
        some [0, 17, 34, 51, 68, 85, 102, 119] ∧
    8 ≤ ([0, 17, 34, 51, 68, 85, 102, 119] : List Nat).length ∧
    get_reference_block_data witnessChain =
      some ((witnessChain.head_block_number - 3) &&& 0xFFFF,
            littleEndianNat ((([0, 17, 34, 51, 68, 85, 102, 119] : List Nat).drop 4).take 4)) :=
  ⟨by decide, by decide,
   get_reference_block_data_correct witnessChain [0, 17, 34, 51, 68, 85, 102, 119]
     (by decide) (by decide)⟩

/-! Recoverable-signature engine (src/nektar/transactions.py).

The elliptic-curve primitives of the `ecdsa` library are oracles:
`sign t` is the `(r, s)` pair that `sk.sign_digest` produces from the
deterministic nonce of retry attempt `t` (each retry reseeds the nonce
with the wall clock, so attempts are indexed by a counter), `recPK i rs`
models `recover_public_key(digest, signature, i)` for signature `rs`,
and `keyMatch p` models the comparison of a reconstructed key `p` with
the signer's verifying key. -/

/-- Fixed-width 32-byte big-endian encoding of an integer, as
`ecdsa.util.number_to_string` produces for the secp256k1 order (whose
byte length is 32); `sigencode_string r s` is
`numberToBytes32 r ++ numberToBytes32 s`. -/
def numberToBytes32 (n : Nat) : List Nat :=
  (List.range 32).map fun i => n / 256 ^ (31 - i) % 256

theorem numberToBytes32_length (n : Nat) : (numberToBytes32 n).length = 32 := by
  simp [numberToBytes32]

/-- Length in bytes of the INTEGER body that `ecdsa.util.sigencode_der`
produces for a nonnegative integer `n`: the least `L ≥ 1` with
`n < 2 ^ (8 * L - 1)` (minimal big-endian bytes, plus one leading zero
byte when the high bit of the top byte is set — DER two's-complement
convention).  The search is bounded by 64, enough for every signature
component (`r` and `s` are below the 256-bit curve order).  The code
reads this length for `r` out of byte 3 of the DER signature and for `s`
out of byte `5 + lenR`. -/
def derIntLen (n : Nat) : Nat :=
  ((List.range 64).find? fun L => n < 2 ^ (8 * (L + 1) - 1)).getD 64 + 1

/-- One candidate test of `recover_pubkey_parameter`: when
`recover_public_key` returns `None` (the reconstructed key fails to
verify the signature), the Python code calls `.to_string()` on `None`
and raises `AttributeError`; when the key matches, the candidate index
is returned; otherwise the next candidate (`next`) is tried. -/
def candStep (recPK : Nat → Option Nat) (keyMatch : Nat → Bool) (i : Nat)
    (next : Except PyError (Option Nat)) : Except PyError (Option Nat) :=
  match recPK i with
  | none => .error .attributeError
  | some p => if keyMatch p then .ok (some i) else next

/-- Model of `recover_pubkey_parameter` (src/nektar/transactions.py):
try the candidates `i = 0, 1, 2, 3` of `range(0, 4)` in order and return
the first whose reconstructed public key matches the signer's key;
after the loop the function returns `None`. -/
def recover_pubkey_parameter (recPK : Nat → Option Nat) (keyMatch : Nat → Bool) :
    Except PyError (Option Nat) :=
  candStep recPK keyMatch 0 (candStep recPK keyMatch 1 (candStep recPK keyMatch 2
    (candStep recPK keyMatch 3 (.ok none))))

/-- A successfully returned recovery parameter is one of the four tried
candidates. -/
theorem recover_pubkey_parameter_lt_four (recPK : Nat → Option Nat)
    (keyMatch : Nat → Bool) (i : Nat)
    (h : recover_pubkey_parameter recPK keyMatch = .ok (some i)) : i < 4 := by
  unfold recover_pubkey_parameter candStep at h
  repeat' split at h
  all_goals simp_all
  all_goals omega

/-- Tail of the signing loop after the canonical-length check succeeds:
compute the recovery parameter, add 31 (`compressed 4 + compact 27`),
and emit the byte string `header ‖ r ‖ s`
(`struct.pack("<B", i)` followed by `sigencode_string r s`).  A `None`
recovery parameter makes the Python statement `i += 31` raise
`TypeError`. -/
def attachRecovery (recPK : Nat → Option Nat) (keyMatch : Nat → Bool) (r s : Nat) :
    Except PyError (List Nat) :=
  match recover_pubkey_parameter recPK keyMatch with
  | .error e => .error e
  | .ok none => .error .typeError
  | .ok (some i) => .ok ((i + 31) :: (numberToBytes32 r ++ numberToBytes32 s))

/-- Retry loop of `sign_transaction` for one key (the `while True`
block): attempt `t` signs with a fresh nonce; if the DER lengths of `r`
and `s` are not both 32 the loop re-signs with the next nonce, otherwise
it leaves the loop and attaches the recovery header.  `fuel` bounds how
many attempts are unfolded; `none` means the loop was still running
after `fuel` attempts. -/
def signLoop (sign : Nat → Nat × Nat) (recPK : Nat → Nat × Nat → Option Nat)
    (keyMatch : Nat → Bool) (attempt : Nat) : Nat → Option (Except PyError (List Nat))
  | 0 => none
  | fuel + 1 =>
    let rs := sign attempt
    if derIntLen rs.1 = 32 ∧ derIntLen rs.2 = 32 then
      some (attachRecovery (fun i => recPK i rs) keyMatch rs.1 rs.2)
    else
      signLoop sign recPK keyMatch (attempt + 1) fuel

/-- Oracles of the `ecdsa` library for one private key. -/
structure KeyOracle where
  sign : Nat → Nat × Nat
  recPK : Nat → Nat × Nat → Option Nat
  keyMatch : Nat → Bool

/-- Model of `sign_transaction`'s per-key loop over `wifs`: each key runs
the retry loop, its emitted byte string is hex-encoded
(`hexlify(sigstr).decode("ascii")`) and appended to `signatures`, which
is returned in input order.  An exception inside any key's loop aborts
the whole call. -/
def sign_transaction_sigs (keys : List KeyOracle) (fuel : Nat) :
    Option (Except PyError (List (List Char))) :=
  match keys with
  | [] => some (.ok [])
  | k :: rest =>
    match signLoop k.sign k.recPK k.keyMatch 0 fuel with
    | none => none
    | some (.error e) => some (.error e)
    | some (.ok bytes) =>
      match sign_transaction_sigs rest fuel with
      | none => none
      | some (.error e) => some (.error e)
      | some (.ok sigs) => some (.ok (hexlify bytes :: sigs))

/-- A value emitted by the retry loop comes from some attempt whose
signature components passed the canonical DER-length check. -/
theorem signLoop_emits (sign : Nat → Nat × Nat) (recPK : Nat → Nat × Nat → Option Nat)
    (keyMatch : Nat → Bool) :
    ∀ fuel attempt res, signLoop sign recPK keyMatch attempt fuel = some res →
      ∃ t, derIntLen (sign t).1 = 32 ∧ derIntLen (sign t).2 = 32 ∧
        res = attachRecovery (fun i => recPK i (sign t)) keyMatch (sign t).1 (sign t).2 := by
  intro fuel
  induction fuel with
  | zero => intro attempt res h; cases h
  | succ n ih =>
    intro attempt res h
    rw [signLoop] at h
    split at h
    · next hcond =>
        injection h with h
        exact ⟨attempt, hcond.1, hcond.2, h.symm⟩
    · exact ih (attempt + 1) res h

/-- A successfully attached signature is the header `i + 31` for the
found recovery parameter `i < 4`, followed by the two fixed-width
components. -/
theorem attachRecovery_ok (recPK : Nat → Option Nat) (keyMatch : Nat → Bool)
    (r s : Nat) (bytes : List Nat)
    (h : attachRecovery recPK keyMatch r s = .ok bytes) :
    ∃ i, i < 4 ∧ recover_pubkey_parameter recPK keyMatch = .ok (some i) ∧
      bytes = (i + 31) :: (numberToBytes32 r ++ numberToBytes32 s) := by
  unfold attachRecovery at h
  split at h
  · cases h
  · cases h
  · next i hrec =>
      injection h with h
      exact ⟨i, recover_pubkey_parameter_lt_four _ _ _ hrec, hrec, h.symm⟩

/-- C2: every compact signature emitted by `sign_transaction` comes from
an attempt whose `r` and `s` passed the 32-byte canonical DER-length
retry check, and is the hex encoding of a 1-byte header `i + 31` —
`i < 4` the recovery parameter found for that signature, so the header
value is in 31..34 — followed by the 32-byte big-endian `r` and the
32-byte big-endian `s`: 130 hex characters in total. -/
theorem sign_transaction_sigs_canonical (keys : List KeyOracle) (fuel : Nat)
    (sigs : List (List Char))
    (h : sign_transaction_sigs keys fuel = some (.ok sigs)) :
    ∀ sig ∈ sigs, ∃ k ∈ keys, ∃ t i,
      derIntLen (k.sign t).1 = 32 ∧ derIntLen (k.sign t).2 = 32 ∧
      recover_pubkey_parameter (fun j => k.recPK j (k.sign t)) k.keyMatch = .ok (some i) ∧
      i < 4 ∧ i + 31 ∈ ([31, 32, 33, 34] : List Nat) ∧
      sig = hexlify ((i + 31) :: (numberToBytes32 (k.sign t).1 ++ numberToBytes32 (k.sign t).2)) ∧
      (numberToBytes32 (k.sign t).1).length = 32 ∧
      (numberToBytes32 (k.sign t).2).length = 32 ∧
      sig.length = 130 := by
  induction keys generalizing sigs with
  | nil =>
    unfold sign_transaction_sigs at h
    injection h with h
    injection h with h
    subst h
    intro sig hsig
    cases hsig
  | cons k rest ih =>
    unfold sign_transaction_sigs at h
    cases hl : signLoop k.sign k.recPK k.keyMatch 0 fuel with
    | none => rw [hl] at h; cases h
    | some res =>
      rw [hl] at h
      cases res with
      | error e => cases h
      | ok bytes =>
        cases hr : sign_transaction_sigs rest fuel with
        | none => rw [hr] at h; cases h
        | some res' =>
          rw [hr] at h
          cases res' with
          | error e => cases h
          | ok sigs' =>
            injection h with h
            injection h with h
            subst h
            obtain ⟨t, hdr, hds, hres⟩ := signLoop_emits _ _ _ fuel 0 _ hl
            obtain ⟨i, hi4, hrec, hbytes⟩ := attachRecovery_ok _ _ _ _ _ hres.symm
            intro sig hsig
            rcases List.mem_cons.mp hsig with hsig' | hsig'
            · subst hsig'
              refine ⟨k, List.mem_cons_self _ _, t, i, hdr, hds, hrec, hi4, ?_, ?_, ?_, ?_, ?_⟩
              · simp only [List.mem_cons, List.mem_singleton]
                omega
              · rw [hbytes]
              · exact numberToBytes32_length _
              · exact numberToBytes32_length _
              · rw [hbytes, hexlify_length]
                simp [numberToBytes32_length]
            · obtain ⟨k', hk', rest'⟩ := ih sigs' hr sig hsig'
              exact ⟨k', List.mem_cons_of_mem _ hk', rest'⟩

/-- Key oracle used to instantiate `sign_transaction_sigs_canonical`:
the library signs every attempt with `r = s = 2 ^ 250` (whose DER body
length is 32), candidate 0 reconstructs the key `7`, which matches. -/
def w2Key : KeyOracle where
  sign := fun _ => (2 ^ 250, 2 ^ 250)
  recPK := fun i _ => if i = 0 then some 7 else none
  keyMatch := fun p => p == 7

/-- Compact signature that `w2Key` emits on its first attempt. -/
def w2Sig : List Char :=
  hexlify ((0 + 31) :: (numberToBytes32 (2 ^ 250) ++ numberToBytes32 (2 ^ 250)))

/-- Instantiation of `sign_transaction_sigs_canonical` on `w2Key` and
its emitted signature `w2Sig`. -/
theorem sign_transaction_sigs_canonical_witness :
    sign_transaction_sigs [w2Key] 1 = some (.ok [w2Sig]) ∧
    (∃ k ∈ [w2Key], ∃ t i,
      derIntLen (k.sign t).1 = 32 ∧ derIntLen (k.sign t).2 = 32 ∧
      recover_pubkey_parameter (fun j => k.recPK j (k.sign t)) k.keyMatch = .ok (some i) ∧
      i < 4 ∧ i + 31 ∈ ([31, 32, 33, 34] : List Nat) ∧
      w2Sig = hexlify ((i + 31) ::
        (numberToBytes32 (k.sign t).1 ++ numberToBytes32 (k.sign t).2)) ∧
      (numberToBytes32 (k.sign t).1).length = 32 ∧
      (numberToBytes32 (k.sign t).2).length = 32 ∧
      w2Sig.length = 130) :=
  ⟨by rfl,
   sign_transaction_sigs_canonical [w2Key] 1 [w2Sig] (by rfl) w2Sig (by simp)⟩

/-- C4 counterexample: a digest/signature/key situation in which every
candidate `i` reconstructs a key (`recover_public_key` verifies all
four times) but none matches the signer's key.  `sign_transaction`
fails with `TypeError` — the Python `None` returned by
`recover_pubkey_parameter` flows into `i += 31` — and not with the
`CryptoError` the claim names, a class that exists nowhere in the
repository. -/
theorem recovery_failure_not_cryptoerror :
    attachRecovery (fun j => some (j + 10)) (fun _ => false) (2 ^ 250) (2 ^ 250) =
        .error .typeError ∧
    sign_transaction_sigs
        [⟨fun _ => (2 ^ 250, 2 ^ 250), fun j _ => some (j + 10), fun _ => false⟩] 1 =
      some (.error .typeError) ∧
    sign_transaction_sigs
        [⟨fun _ => (2 ^ 250, 2 ^ 250), fun j _ => some (j + 10), fun _ => false⟩] 1 ≠
      some (.error .cryptoError) := by
  refine ⟨rfl, rfl, ?_⟩
  rw [show sign_transaction_sigs
      [⟨fun _ => (2 ^ 250, 2 ^ 250), fun j _ => some (j + 10), fun _ => false⟩] 1 =
      some (.error .typeError) from rfl]
  simp

/-- C4 amended: when none of the four recovery-id candidates
reconstructs a public key matching the signer's key, signing fails with
a fatal unhandled exception — `AttributeError` if some candidate's
recovered key fails signature verification (`recover_public_key`
returns `None` and `.to_string()` is called on it), otherwise
`TypeError` from `None + 31` — never with a `CryptoError` (no such
class exists in the repository); the engine never silently picks an
arbitrary candidate (the result is an error, not a signature), so the
caller never proceeds to broadcast. -/
theorem recovery_failure_fatal (recPK : Nat → Option Nat) (keyMatch : Nat → Bool)
    (r s : Nat)
    (hnone : ∀ i, i < 4 → ∀ p, recPK i = some p → keyMatch p = false) :
    ∃ e, attachRecovery recPK keyMatch r s = .error e ∧
      (e = .typeError ∨ e = .attributeError) ∧ e ≠ .cryptoError := by
  simp only [attachRecovery, recover_pubkey_parameter, candStep]
  rcases h0 : recPK 0 with _ | p0 <;> simp only [h0]
  · exact ⟨.attributeError, rfl, .inr rfl, by simp⟩
  · rw [hnone 0 (by omega) p0 h0]
    simp only [Bool.false_eq_true, if_false]
    rcases h1 : recPK 1 with _ | p1 <;> simp only [h1]
    · exact ⟨.attributeError, rfl, .inr rfl, by simp⟩
    · rw [hnone 1 (by omega) p1 h1]
      simp only [Bool.false_eq_true, if_false]
      rcases h2 : recPK 2 with _ | p2 <;> simp only [h2]
      · exact ⟨.attributeError, rfl, .inr rfl, by simp⟩
      · rw [hnone 2 (by omega) p2 h2]
        simp only [Bool.false_eq_true, if_false]
        rcases h3 : recPK 3 with _ | p3 <;> simp only [h3]
        · exact ⟨.attributeError, rfl, .inr rfl, by simp⟩
        · rw [hnone 3 (by omega) p3 h3]
          simp only [Bool.false_eq_true, if_false]
          exact ⟨.typeError, rfl, .inl rfl, by simp⟩

/-- Instantiation of `recovery_failure_fatal`: all candidates reconstruct
keys, none matches. -/
theorem recovery_failure_fatal_witness :
    ∃ e, attachRecovery (fun j => some (j + 10)) (fun _ => false) 5 5 = .error e ∧
      (e = .typeError ∨ e = .attributeError) ∧ e ≠ .cryptoError :=
  recovery_failure_fatal (fun j => some (j + 10)) (fun _ => false) 5 5
    (fun _ _ _ _ => rfl)

/-! Digest construction of `sign_transaction`
(src/nektar/transactions.py, line 30). -/

/-- Modelled from the spec: the constant `HIVE_CHAIN_ID` that
src/nektar/transactions.py imports from `nektar.constants` is absent
from src/nektar/constants.py (the import names a missing symbol).  The
spec describes the chain identifier as 32 bytes, and the repository's
tests (nektar_tests.py, test_nektar_waggle.py) expect the chain id
reported by a node to match `bee*`: the Hive mainnet chain id. -/
def HIVE_CHAIN_ID : List Char :=
  "beeab0de00000000000000000000000000000000000000000000000000000000".toList

/-- Model of `serialized_transaction[0:-2]`: all but the last two
characters (the serializer's trailing byte pair). -/
def stripLastBytePair (s : List Char) : List Char := s.take (s.length - 2)

/-- Byte string hashed by `sign_transaction`:
`unhexlify(HIVE_CHAIN_ID + serialized_transaction[0:-2])`.  The
function has no chain-id parameter, so the module constant enters the
digest whatever chain id the caller holds. -/
def sign_transaction_message (serialized : List Char) : Option (List Nat) :=
  unhexlify (HIVE_CHAIN_ID ++ stripLastBytePair serialized)

/-- Byte string the claim says is hashed: the chain identifier supplied
as input to the signing step, concatenated with the stripped
serialization. -/
def claimed_sign_message (chain_id serialized : List Char) : Option (List Nat) :=
  unhexlify (chain_id ++ stripLastBytePair serialized)

/-- Digest signed by `sign_transaction`, parametric in the external
`hashlib.sha256`. -/
def sign_transaction_digest (sha256 : List Nat → List Nat) (serialized : List Char) :
    Option (List Nat) :=
  (sign_transaction_message serialized).map sha256

/-- C3 counterexample: `AppBase.broadcast` supplies `self.chain_id`
(fetched from `get_version`) to the signing step, but
`sign_transaction` hashes the module constant `HIVE_CHAIN_ID` — the
function takes no chain-id argument at all (indeed the three-argument
call in appbase.py line 322 does not match the two-parameter signature
and raises `TypeError`).  For a supplied chain id of 64 `'0'`
characters and serialization `aabb`, the byte string hashed by the code
differs from the one the claim prescribes. -/
theorem sign_digest_ignores_supplied_chain_id :
    sign_transaction_digest (fun bs => bs) ("aabb".toList) ≠
      (claimed_sign_message (List.replicate 64 '0') ("aabb".toList)).map (fun bs => bs) := by
  decide

/-- C3 amended: for every serialized transaction, the digest that
`sign_transaction` signs is SHA-256 of the module constant
`HIVE_CHAIN_ID`'s bytes concatenated with the serialized-transaction
bytes with the last byte pair (final two hex characters) stripped; the
chain identifier entering the digest is that fixed constant, not the
one supplied by the broadcast caller. -/
theorem sign_digest_uses_module_constant (sha256 : List Nat → List Nat)
    (serialized : List Char) :
    sign_transaction_digest sha256 serialized =
      (claimed_sign_message HIVE_CHAIN_ID serialized).map sha256 := rfl

/-! Broadcast orchestrator and authority resolver (src/nektar/appbase.py,
`AppBase.broadcast` and `_get_necessary_wifs`; role table and operation
allow-list from src/nektar/constants.py). -/

/-- Operation-tag allow-list `BLOCKCHAIN_OPERATIONS`
(src/nektar/constants.py; the source repeats a few virtual-operation
names, kept verbatim). -/
def BLOCKCHAIN_OPERATIONS : List String := [
  "vote", "comment", "transfer", "transfer_to_vesting", "withdraw_vesting",
  "limit_order_create", "limit_order_cancel", "feed_publish", "convert",
  "account_create", "account_update", "witness_update", "account_witness_vote",
  "account_witness_proxy", "pow", "custom", "report_over_production",
  "delete_comment", "custom_json", "comment_options",
  "set_withdraw_vesting_route", "limit_order_create2", "claim_account",
  "create_claimed_account", "request_account_recovery", "recover_account",
  "change_recovery_account", "escrow_transfer", "escrow_dispute",
  "escrow_release", "pow2", "escrow_approve", "transfer_to_savings",
  "transfer_from_savings", "cancel_transfer_from_savings", "custom_binary",
  "decline_voting_rights", "reset_account", "set_reset_account",
  "claim_reward_balance", "delegate_vesting_shares",
  "account_create_with_delegation", "witness_set_properties",
  "account_update2", "create_proposal", "update_proposal_votes",
  "remove_proposal", "fill_convert_request", "author_reward",
  "curation_reward", "comment_reward", "liquidity_reward",
  "producer_reward", "interest", "fill_vesting_withdraw", "fill_order",
  "shutdown_witness", "fill_transfer_from_savings", "hardfork",
  "comment_payout_update", "return_vesting_delegation",
  "comment_benefactor_reward", "return_vesting_delegation",
  "comment_benefactor_reward", "producer_reward",
  "clear_null_account_balance", "proposal_pay", "sps_fund",
  "hardfork_hive", "hardfork_hive_restore"]

/-- Role table `ROLES` (src/nektar/constants.py): ordered lists of
acceptable private-key roles per operation kind. -/
def ROLES : List (String × List String) := [
  ("all", ["owner", "active", "posting", "memo"]),
  ("comment", ["posting", "active", "owner"]),
  ("follow", ["posting", "active", "owner"]),
  ("vote", ["posting", "active", "owner"]),
  ("transfer_to_vesting", ["active", "owner"]),
  ("transfer_to_savings", ["active", "owner"]),
  ("transfer", ["active", "owner"]),
  ("custom_json", ["active"]),
  ("owner", ["owner"]),
  ("active", ["active"]),
  ("posting", ["posting"]),
  ("memo", ["memo"])]

/-- Walk of `for role in ROLES[operation]` inside `_get_necessary_wifs`:
return the singleton wif of the first acceptable role present in the
keyring, `[]` when none is. -/
def selectFirstRole (wifs : List (String × String)) : List String → List String
  | [] => []
  | role :: rest =>
    match wifs.lookup role with
    | some w => [w]
    | none => selectFirstRole wifs rest

/-- Model of `_get_necessary_wifs` (src/nektar/appbase.py): the keyring
is a role-to-wif dictionary (association list with at most one entry
per role); `ROLES[operation]` raises `KeyError` when the operation has
no entry in the role table. -/
def get_necessary_wifs (wifs : List (String × String)) (operation : String) :
    Except PyError (List String) :=
  match ROLES.lookup operation with
  | none => .error .keyError
  | some roles => .ok (selectFirstRole wifs roles)

/-- One element of a transaction's `operations` array: the tag and the
payload's `required_auths` field (consulted only for `custom_json`). -/
structure Operation where
  tag : String
  required_auths : List String
  deriving DecidableEq, Repr

/-- Transaction as seen by `AppBase.broadcast`: its operations and the
prior `signatures` field (`[]` when the field is absent). -/
structure Transaction where
  operations : List Operation
  signatures : List String
  deriving DecidableEq, Repr

/-- Operation-validation loop of `AppBase.broadcast`: every tag must be
in the allow-list (`NektarException` otherwise); the dominant operation
is the last tag seen, downgraded to the pseudo-operation `posting` when
it is `custom_json` with an empty `required_auths` list. -/
def resolveOperation : List Operation → String → Except PyError String
  | [], acc => .ok acc
  | op :: rest, _ =>
    if op.tag ∈ BLOCKCHAIN_OPERATIONS then
      resolveOperation rest
        (if op.tag = "custom_json" ∧ op.required_auths = [] then "posting" else op.tag)
    else .error (.nektarException (op.tag ++ " is unsupported"))

/-- Signature attachment of `AppBase.broadcast`:
`signatures.extend(sign_transaction(...))` followed by
`transaction["signatures"] = list(set(signatures))`.  The Python set
de-duplicates and iterates in unspecified order, so the model
de-duplicates the concatenation with `List.dedup`; only membership in
the result is meaningful. -/
def attachSignatures (prior fresh : List String) : List String :=
  (prior ++ fresh).dedup

/-- Outcome of `AppBase.broadcast`. -/
inductive BroadcastResult where
  | verified (v : Bool)
  | submitted (signatures : List String) (result : Nat)
  deriving DecidableEq, Repr

/-- Call semantics of the SIGN step at appbase.py line 322:
`sign_transaction(self.chain_id, serialized_transaction, wifs)` passes
three positional arguments to the two-parameter
`def sign_transaction(serialized_transaction, wifs)` of
src/nektar/transactions.py, so Python raises `TypeError` before the
function body runs, for every argument combination. -/
def sign_transaction_call (_chain_id _serialized : List Char)
    (_wifs : List String) : Except PyError (List String) :=
  .error .typeError

/-- Model of `AppBase.broadcast` (src/nektar/appbase.py): validate the
operations, collect the prior `signatures` field, obtain the remote
serialization (`serializeResp`; the transaction-id hash computed from
it binds no claim and is elided), select the wifs for the dominant
operation, then perform the SIGN call — which raises `TypeError`
unconditionally, see `sign_transaction_call` — followed, in the source
text after that call, by attachment of the de-duplicated signature
union, the remote `verify_authority` (`verifyResp`), the strict-mode
check, the `verify_only` early return, and submission (`submitResp`). -/
def broadcast (wifs : List (String × String)) (tx : Transaction)
    (strict verify_only : Bool) (chain_id : List Char)
    (serializeResp : Except PyError (List Char))
    (verifyResp : Except PyError Bool) (submitResp : Except PyError Nat) :
    Except PyError BroadcastResult :=
  match resolveOperation tx.operations "" with
  | .error e => .error e
  | .ok operation =>
    match serializeResp with
    | .error e => .error e
    | .ok serialized =>
      match get_necessary_wifs wifs operation with
      | .error e => .error e
      | .ok selected =>
        match sign_transaction_call chain_id serialized selected with
        | .error e => .error e
        | .ok fresh =>
          let finalSigs := attachSignatures tx.signatures fresh
          match verifyResp with
          | .error e => .error e
          | .ok verified =>
            if strict ∧ ¬verified then
              .error (.nektarException "Transaction does not contain required signatures.")
            else if verify_only then
              .ok (.verified verified)
            else
              match submitResp with
              | .error e => .error e
              | .ok r => .ok (.submitted finalSigs r)

/-- A keyring holding none of the listed roles selects no wif. -/
theorem selectFirstRole_eq_nil (wifs : List (String × String)) (roles : List String)
    (hnone : ∀ role ∈ roles, wifs.lookup role = none) :
    selectFirstRole wifs roles = [] := by
  induction roles with
  | nil => rfl
  | cons role rest ih =>
    unfold selectFirstRole
    rw [hnone role (List.mem_cons_self _ _)]
    exact ih fun r hr => hnone r (List.mem_cons_of_mem _ hr)

/-- C5 counterexample: a `transfer` operation (acceptable roles
`active`, `owner`) against a keyring holding only a `posting` key, in
lenient mode.  No `AuthorityError` is raised — no class of that name
exists in the repository — and no authority check fails locally: wif
selection answers with the empty list and no error, and the pipeline
then aborts with the unconditional `TypeError` of the three-argument
`sign_transaction` call, an exception unrelated to authority. -/
theorem broadcast_fails_with_typeerror_not_authorityerror :
    get_necessary_wifs [("posting", "wifP")] "transfer" = .ok [] ∧
    broadcast [("posting", "wifP")] ⟨[⟨"transfer", []⟩], []⟩ false false
        HIVE_CHAIN_ID (.ok ("aabb".toList)) (.ok false) (.ok 7) =
      .error .typeError ∧
    (Except.error PyError.typeError : Except PyError BroadcastResult) ≠
      .error .authorityError :=
  ⟨rfl, rfl, by simp⟩

/-- C5 amended: when the keyring contains none of the dominant
operation's acceptable roles, no authority error is raised at all —
`_get_necessary_wifs` answers with the empty wif list and no exception
— and the broadcast then aborts, whatever the strictness, verification
answer and submission response, with the `TypeError` of the
three-argument call to the two-parameter `sign_transaction`; the caller
never reaches verification or submission, for a reason unrelated to
authority (the same `TypeError` strikes keyrings that do hold an
acceptable key). -/
theorem broadcast_empty_keyring_no_authority_error
    (wifs : List (String × String)) (tx : Transaction)
    (strict verify_only : Bool) (chain_id serialized : List Char)
    (verifyResp : Except PyError Bool) (submitResp : Except PyError Nat)
    (op : String) (roles : List String)
    (hop : resolveOperation tx.operations "" = .ok op)
    (hroles : ROLES.lookup op = some roles)
    (hnone : ∀ role ∈ roles, wifs.lookup role = none) :
    get_necessary_wifs wifs op = .ok [] ∧
    broadcast wifs tx strict verify_only chain_id (.ok serialized)
        verifyResp submitResp = .error .typeError := by
  have hsel : selectFirstRole wifs roles = [] := selectFirstRole_eq_nil wifs roles hnone
  have hw : get_necessary_wifs wifs op = .ok [] := by
    rw [get_necessary_wifs, hroles]
    simp [hsel]
  exact ⟨hw, by simp [broadcast, hop, hw, sign_transaction_call]⟩

/-- Instantiation of `broadcast_empty_keyring_no_authority_error`: a
`transfer` transaction against a posting-only keyring, strict mode. -/
theorem broadcast_empty_keyring_no_authority_error_witness :
    get_necessary_wifs [("posting", "wifP")] "transfer" = .ok [] ∧
    broadcast [("posting", "wifP")] ⟨[⟨"transfer", []⟩], []⟩ true true
        HIVE_CHAIN_ID (.ok ("ccdd".toList)) (.ok true) (.ok 9) =
      .error .typeError :=
  broadcast_empty_keyring_no_authority_error [("posting", "wifP")]
    ⟨[⟨"transfer", []⟩], []⟩ true true HIVE_CHAIN_ID ("ccdd".toList)
    (.ok true) (.ok 9) "transfer" ["active", "owner"]
    (by rfl) (by rfl) (by decide)

/-- C6 counterexample: a transaction that already carries the signature
`oldsig`.  The SIGN step never replaces that prior set with a freshly
computed one: the pipeline aborts with the `TypeError` of the
three-argument `sign_transaction` call before any signature is
computed or attached, so no outcome — in particular no transaction
whose signature set is a fresh replacement — is ever produced. -/
theorem broadcast_prior_signatures_not_replaced :
    broadcast [("active", "wifA")] ⟨[⟨"transfer", []⟩], ["oldsig"]⟩ false false
        HIVE_CHAIN_ID (.ok ("aabb".toList)) (.ok true) (.ok 1) =
      .error .typeError ∧
    (broadcast [("active", "wifA")] ⟨[⟨"transfer", []⟩], ["oldsig"]⟩ false false
        HIVE_CHAIN_ID (.ok ("aabb".toList)) (.ok true) (.ok 1)).toOption = none :=
  ⟨rfl, rfl⟩

/-- C6 amended: for every transaction that already carries a non-empty
`signatures` field and whose pipeline reaches the SIGN step, that step
neither replaces nor merges the prior set: the `sign_transaction` call
raises `TypeError` before any signature is attached, leaving the prior
`signatures` field as it was, and the broadcast aborts with that
exception (the unreached attachment text at appbase.py lines 322-323
would have merged — `extend` then `list(set(...))` — not replaced). -/
theorem broadcast_prior_signatures_untouched
    (wifs : List (String × String)) (tx : Transaction)
    (strict verify_only : Bool) (chain_id serialized : List Char)
    (verifyResp : Except PyError Bool) (submitResp : Except PyError Nat)
    (op : String) (selected : List String)
    (_hprior : tx.signatures ≠ [])
    (hop : resolveOperation tx.operations "" = .ok op)
    (hsel : get_necessary_wifs wifs op = .ok selected) :
    broadcast wifs tx strict verify_only chain_id (.ok serialized)
        verifyResp submitResp = .error .typeError := by
  simp [broadcast, hop, hsel, sign_transaction_call]

/-- Instantiation of `broadcast_prior_signatures_untouched`: a
transaction carrying the prior signature `oldsig`, with an active key
present. -/
theorem broadcast_prior_signatures_untouched_witness :
    broadcast [("active", "wifA")] ⟨[⟨"transfer", []⟩], ["oldsig"]⟩ true false
        HIVE_CHAIN_ID (.ok ("eeff".toList)) (.ok false) (.ok 3) =
      .error .typeError :=
  broadcast_prior_signatures_untouched [("active", "wifA")]
    ⟨[⟨"transfer", []⟩], ["oldsig"]⟩ true false HIVE_CHAIN_ID ("eeff".toList)
    (.ok false) (.ok 3) "transfer" ["wifA"]
    (by decide) (by rfl) (by rfl)

/-- C7: a `custom_json` operation with empty `required_auths` resolves
to the pseudo-operation `posting`, whose acceptable-role list is
`["posting"]`, so wif selection consults exactly the keyring's posting
entry — an `active` or `owner` key is never selected even when present;
with non-empty `required_auths` the operation resolves to `custom_json`,
whose role list is `["active"]`, so the active key is required. -/
theorem custom_json_least_privilege (auths : List String)
    (wifs : List (String × String)) :
    resolveOperation [⟨"custom_json", auths⟩] "" =
        .ok (if auths = [] then "posting" else "custom_json") ∧
    ROLES.lookup (if auths = [] then "posting" else "custom_json") =
        some (if auths = [] then ["posting"] else ["active"]) ∧
    get_necessary_wifs wifs (if auths = [] then "posting" else "custom_json") =
      .ok (match wifs.lookup (if auths = [] then "posting" else "active") with
            | some w => [w]
            | none => []) := by
  have hmem : ("custom_json" ∈ BLOCKCHAIN_OPERATIONS) := by decide
  have hp : ROLES.lookup "posting" = some ["posting"] := by rfl
  have ha : ROLES.lookup "custom_json" = some ["active"] := by rfl
  by_cases h : auths = []
  · refine ⟨by simp [resolveOperation, hmem, h], by simp [h, hp], ?_⟩
    simp only [h, if_true, reduceIte]
    rw [get_necessary_wifs, hp]
    cases hw : wifs.lookup "posting" <;> simp [selectFirstRole, hw]
  · refine ⟨by simp [resolveOperation, hmem, h], by simp [h, ha], ?_⟩
    simp only [h, if_false, reduceIte]
    rw [get_necessary_wifs, ha]
    cases hw : wifs.lookup "active" <;> simp [selectFirstRole, hw]

/-! Failover transport (src/nektar/appbase.py, `AppBase._send_request`).

Each configured node is paired with the outcome of attempting it:
`none` models any exception inside the `try` block (connection failure,
non-2xx HTTP status via `raise_for_status`, malformed JSON), which the
bare `except` swallows before moving to the next node; `some resp`
models a successfully parsed response body. -/

/-- Parsed JSON-RPC response body: carrying a `result` field, carrying
an `error` field (and no `result`), or neither. -/
inductive RpcResponse where
  | withResult (v : Nat)
  | withError (msg : String)
  | other
  deriving DecidableEq, Repr

/-- First successful response in node-list order (the `for` loop with
`break`); `none` when every attempt raises. -/
def firstResponse : List (String × Option RpcResponse) → Option RpcResponse
  | [] => none
  | (_, o) :: rest =>
    match o with
    | some r => some r
    | none => firstResponse rest

/-- Nodes actually attempted, in order: every node up to and including
the first one that responds. -/
def attemptedNodes : List (String × Option RpcResponse) → List String
  | [] => []
  | (n, o) :: rest =>
    n :: (match o with
          | some _ => []
          | none => attemptedNodes rest)

/-- Result of `_send_request`: a `result` value, or the empty dictionary
`\x7b\x7d` that the code returns when no node responded, when the body
has neither field, or when an `error` body is tolerated in lenient
mode. -/
inductive RpcOutcome where
  | value (v : Nat)
  | empty
  deriving DecidableEq, Repr

/-- Model of `AppBase._send_request`: iterate the node list, return the
empty result if every node failed, extract `result` if present,
otherwise raise the `error` message in strict mode and return the empty
result in lenient mode (or when neither field is present). -/
def send_request (nodes : List (String × Option RpcResponse)) (strict : Bool) :
    Except PyError RpcOutcome :=
  match firstResponse nodes with
  | none => .ok .empty
  | some (.withResult v) => .ok (.value v)
  | some (.withError msg) =>
      if strict then .error (.nektarException msg) else .ok .empty
  | some .other => .ok .empty

/-- C8: for every node list in which a (possibly empty) prefix of nodes
fails at the connection/HTTP level and the next node responds with a
`result`, the transport attempts exactly the hosts of the prefix plus
the succeeding node, in list order, and returns that node's parsed
result without raising — whatever strictness the caller asked for and
whatever nodes follow. -/
theorem send_request_failover (failing : List String) (lastNode : String)
    (v : Nat) (strict : Bool) :
    send_request (failing.map (fun n => (n, none)) ++ [(lastNode, some (.withResult v))])
        strict = .ok (.value v) ∧
    attemptedNodes (failing.map (fun n => (n, none)) ++ [(lastNode, some (.withResult v))]) =
      failing ++ [lastNode] := by
  have hfr : firstResponse
      (failing.map (fun n => (n, none)) ++ [(lastNode, some (.withResult v))]) =
      some (.withResult v) := by
    induction failing with
    | nil => rfl
    | cons n rest ih => simpa [firstResponse] using ih
  have hat : attemptedNodes
      (failing.map (fun n => (n, none)) ++ [(lastNode, some (.withResult v))]) =
      failing ++ [lastNode] := by
    clear hfr
    induction failing with
    | nil => rfl
    | cons n rest ih => simpa [attemptedNodes] using ih
  exact ⟨by rw [send_request, hfr], hat⟩

/-- C9 counterexample: two nodes, both failing at the connection level,
in strict mode.  `_send_request` returns the empty result and raises
nothing — `response is None` is checked before any strictness logic —
contradicting the claim that strict callers see an exception. -/
theorem send_request_strict_all_failing_returns_empty :
    send_request [("node-a", none), ("node-b", none)] true = .ok .empty := rfl

/-- C9 amended: when every configured node fails at the connection/HTTP
level, the transport returns the empty result without raising,
regardless of the strict/lenient setting; the strict flag governs only
the case of a reachable node answering with a JSON-RPC `error` body,
which raises in strict mode and yields the empty result in lenient
mode. -/
theorem send_request_total_failure (nodes : List String) (failing : List String)
    (strict : Bool) (msg : String) :
    send_request (nodes.map (fun n => (n, none))) strict = .ok .empty ∧
    send_request (failing.map (fun n => (n, none)) ++ [("replying", some (.withError msg))])
        strict = (if strict then .error (.nektarException msg) else .ok .empty) := by
  constructor
  · have hfr : firstResponse (nodes.map (fun n => (n, none))) = none := by
      induction nodes with
      | nil => rfl
      | cons n rest ih => simpa [firstResponse] using ih
    rw [send_request, hfr]
  · have hfr : firstResponse
        (failing.map (fun n => (n, none)) ++ [("replying", some (.withError msg))]) =
        some (.withError msg) := by
      induction failing with
      | nil => rfl
      | cons n rest ih => simpa [firstResponse] using ih
    rw [send_request, hfr]

/-! Node-list configuration (src/nektar/appbase.py `AppBase.custom_nodes`
and src/nektar/constants.py `NODES`). -/

/-- Default node list `NODES` (src/nektar/constants.py). -/
def NODES : List String := [
  "api.hive.blog", "api.openhive.network", "anyx.io", "hived.privex.io",
  "rpc.ausbit.dev", "techcoderx.com", "rpc.ecency.com", "hive.roelandp.nl",
  "hived.emre.sh", "api.deathwing.me", "api.c0ff33a.uk", "hive-api.arcange.eu"]

/-- Model of `re.sub` with the protocol pattern (`http` or `https`
followed by `://`, the optional `s` matched greedily) and empty
replacement: remove every occurrence, scanning left to right. -/
def stripProtocols : List Char → List Char
  | 'h' :: 't' :: 't' :: 'p' :: 's' :: ':' :: '/' :: '/' :: rest => stripProtocols rest
  | 'h' :: 't' :: 't' :: 'p' :: ':' :: '/' :: '/' :: rest => stripProtocols rest
  | c :: rest => c :: stripProtocols rest
  | [] => []

/-- Model of `re.sub` with the path pattern (a slash followed by at
least one character, matched greedily to the end) and empty
replacement: everything from the first such slash is removed; a bare
trailing slash survives, having no following character. -/
def stripPath : List Char → List Char
  | [] => []
  | ['/'] => ['/']
  | '/' :: _ :: _ => []
  | c :: rest => c :: stripPath rest

/-- Normalization `custom_nodes` applies to each supplied node: both
`re.sub` passes in order. -/
def cleanNode (node : List Char) : List Char := stripPath (stripProtocols node)

/-- Node-list state of a client instance.  Line 72 of appbase.py,
`self.nodes = NODES`, binds the module-level list object by reference —
no copy is made — so a single field `nodesObj` models the contents of
the one list object that both `constants.NODES` and `self.nodes`
reference.  `selfNode` is the separate stray attribute `self.node`
(written without the final `s`) that `custom_nodes` initializes. -/
structure NodeState where
  nodesObj : List String
  selfNode : Option (List String)
  deriving DecidableEq, Repr

/-- State of a freshly initialized client: `self.nodes` references the
module default list, `self.node` does not exist yet. -/
def initNodeState : NodeState := ⟨NODES, none⟩

/-- Per-node body of the `custom_nodes` loop: normalize, raise on an
empty normalization, and `self.nodes.append(node)` — an in-place append
to the shared list object. -/
def appendNodes (st : NodeState) : List String → Except PyError NodeState
  | [] => .ok st
  | n :: rest =>
    let c := (cleanNode n.toList).asString
    if c.length = 0 then .error (.nektarException "Invalid node format.")
    else appendNodes { st with nodesObj := st.nodesObj ++ [c] } rest

/-- Model of `AppBase.custom_nodes`: `None` returns immediately; a lone
string is wrapped in a list by the caller-facing branch (modelled by
always taking a list); `self.node` — not `self.nodes` — is bound to
`[]`; then every supplied node is normalized and appended to
`self.nodes`, the shared module-level list object. -/
def custom_nodes (st : NodeState) (nodes : Option (List String)) :
    Except PyError NodeState :=
  match nodes with
  | none => .ok st
  | some ns => appendNodes { st with selfNode := some [] } ns

/-- C10, on its failing input: calling `custom_nodes` with the single
custom node `https://custom.node/health` on a fresh client leaves every
default node in place ahead of the appended `custom.node`, and the
shared module-level list object now ends with the custom entry — the
claim's post-state (node list replaced, module default untouched) does
not hold. -/
theorem custom_nodes_appends_to_shared_list :
    custom_nodes initNodeState (some ["https://custom.node/health"]) =
        .ok ⟨NODES ++ ["custom.node"], some []⟩ ∧
    NODES ++ ["custom.node"] ≠ ["custom.node"] ∧
    NODES ++ ["custom.node"] ≠ NODES ∧
    "api.hive.blog" ∈ NODES ++ ["custom.node"] :=
  ⟨rfl, by decide, by decide, by decide⟩

end Nektar
